import Mathlib

/-!
Shallow embedding of the sceptre-cdk-handler template handler:
the builder hierarchy (`sceptre_cdk_handler/cdk_builder.py`), the dynamic
class importer (`sceptre_cdk_handler/class_importer.py`) and the handler
dispatch and validation logic (`sceptre_cdk_handler/cdk.py`).

Python dictionaries are modelled as association lists with first-match
lookup and in-place update; subprocess execution is modelled by an exit
oracle mapping the rendered command string to an exit code; the external
synthesis engine is modelled by oracles supplying the cloud assembly or
the synthesized output directory contents.
-/

namespace SceptreCdk

/-- JSON-compatible values, as they appear in handler arguments and CDK context. -/
inductive JValue where
  | str (s : String)
  | num (n : Int)
  | boolean (b : Bool)
  | arr (elems : List JValue)
  | obj (fields : List (String × JValue))
  | null

/-- Python str() rendering of a JSON value, used when interpolating context values
into the cdk synth command line. -/
def JValue.pyStr : JValue → String
  | .str s => s
  | .num n => toString n
  | .boolean b => if b then "True" else "False"
  | .arr _ => "[...]"
  | .obj _ => "{...}"
  | .null => "None"

/-- Python `isinstance(v, (list, dict))`, the nested-value test used by `CDK._check_cdk_json`. -/
def JValue.isNested : JValue → Bool
  | .arr _ => true
  | .obj _ => true
  | _ => false

/-- An environment-variable mapping: a Python dict of strings, modelled as an
association list with unique-key update semantics. -/
abbrev EnvMap := List (String × String)

/-- Python dict item assignment `m[k] = v`: replace the value if the key is present,
otherwise append the new pair. -/
def envSet (m : EnvMap) (k v : String) : EnvMap :=
  if m.any (fun p => p.1 = k) then
    m.map (fun p => if p.1 = k then (k, v) else p)
  else
    m ++ [(k, v)]

/-- Python dict lookup `m.get(k)`. -/
def envLookup (m : EnvMap) (k : String) : Option String :=
  (m.find? (fun p => p.1 = k)).map (fun p => p.2)

/-- Membership of a key in an environment mapping. -/
def envHasKey (m : EnvMap) (k : String) : Bool :=
  m.any (fun p => p.1 = k)

/-- External commands constructed by the builders. `render` produces the exact
command strings built in the source. -/
inductive Command where
  | publishAssets (path : String)
  | cdkSynth (stackLogicalId : String) (outputDir : String) (context : List (String × String))
  deriving Repr, DecidableEq

/-- Rendering of commands to the strings passed to `subprocess.run`
(`CdkBuilder._publish_artifacts` and `CdkJsonBuilder._create_synth_command`). -/
def Command.render : Command → String
  | .publishAssets path => "npx cdk-assets -v publish --path " ++ path
  | .cdkSynth stackLogicalId outputDir context =>
      context.foldl
        (fun cmd kv => cmd ++ "--context " ++ kv.1 ++ "=" ++ kv.2 ++ " ")
        ("npx cdk synth " ++ stackLogicalId ++ " -o " ++ outputDir ++ " -q ")

/-- True exactly for the asset-publishing command. -/
def Command.isPublish : Command → Bool
  | .publishAssets _ => true
  | _ => false

/-- Observable side effects of the handler and its builders. -/
inductive Action where
  | runCmd (c : Command) (env : EnvMap) (cwd : Option String)
  | importStackClass (path : String) (className : String)
  | constructSynthesizer
  | constructStack
  | logWarning
  deriving Repr, DecidableEq

/-- Count of publish-subprocess invocations in an action trace. -/
def countPublish (acts : List Action) : Nat :=
  acts.countP (fun a =>
    match a with
    | .runCmd c _ _ => c.isPublish
    | _ => false)

/-- Errors raised by the handler code. `calledProcessError` is the raw
`subprocess.CalledProcessError` raised by `subprocess.run(..., check=True)`;
`argumentsInvalid` is `TemplateHandlerArgumentsInvalidError` with an optional
chained cause; `sceptreException` is the generic `SceptreException`. -/
inductive PyError where
  | calledProcessError (returncode : Nat) (cmd : String)
  | sceptreException (msg : String)
  | argumentsInvalid (msg : String) (cause : Option PyError)
  | typeError (msg : String)
  | fileNotFoundError (path : String)
  | moduleExecError (msg : String)
  | valueError (msg : String)

/-- The fixed logical stack identifier `CdkBuilder.STACK_LOGICAL_ID`. -/
def STACK_LOGICAL_ID : String := "CDKStack"

/-- Embedding of `CdkBuilder._run_command`: `subprocess.run` with `check=True`
raises `CalledProcessError` on a non-zero exit status, and `_run_command` has no
exception handler, so the raw error propagates to the caller unchanged. -/
def runCommand (exit : String → Nat) (cmd : String) : Except PyError Unit :=
  if exit cmd = 0 then .ok () else .error (.calledProcessError (exit cmd) cmd)

/-- Embedding of `CdkBuilder._get_envs`: the session environment from the
connection manager, overlaid with `CDK_DEFAULT_REGION`. -/
def getEnvs (sessionEnv : EnvMap) (region : String) : EnvMap :=
  envSet sessionEnv "CDK_DEFAULT_REGION" region

/-- Python str.upper restricted to ASCII, mapped over the character list. -/
def strUpper (s : String) : String := String.mk (s.data.map Char.toUpper)

/-- Python str.lower restricted to ASCII, mapped over the character list. -/
def strLower (s : String) : String := String.mk (s.data.map Char.toLower)

/-- Embedding of `CdkJsonBuilder._add_bootstrapless_envs`: one `BSS_<KEY>` variable
(key uppercased) per bootstrapless-config entry. -/
def addBootstraplessEnvs (env : EnvMap) (config : List (String × String)) : EnvMap :=
  config.foldl (fun acc kv => envSet acc ("BSS_" ++ strUpper kv.1) kv.2) env

/-- Environment derivation performed at the top of `CdkJsonBuilder.build_template`:
base envs from `_get_envs`, plus the bootstrapless envs when (and only when) the
bootstrapless config dict is truthy (non-empty). -/
def deriveCdkJsonEnvs (sessionEnv : EnvMap) (region : String)
    (config : List (String × String)) : EnvMap :=
  let envs := getEnvs sessionEnv region
  if !config.isEmpty then addBootstraplessEnvs envs config else envs

/-- Contents of an asset manifest (`aws_cdk.cx_api.AssetManifestArtifact.contents`):
the keys of the `docker_images` dict and the keys of the `files` dict in insertion
order. -/
structure AssetManifestContents where
  dockerImages : List String
  files : List String
  deriving Repr, DecidableEq

/-- An asset-manifest artifact: its contents plus the on-disk manifest file path
(the `.file` attribute). -/
structure AssetManifestArtifact where
  contents : AssetManifestContents
  file : String
  deriving Repr, DecidableEq

/-- An artifact of a cloud assembly; only asset-manifest artifacts are
distinguished by the handler code. -/
inductive Artifact where
  | assetManifest (a : AssetManifestArtifact)
  | other
  deriving Repr, DecidableEq

/-- Whether an artifact is an asset-manifest artifact
(`isinstance(artifacts, aws_cdk.cx_api.AssetManifestArtifact)`). -/
def Artifact.isAssetManifest : Artifact → Bool
  | .assetManifest _ => true
  | .other => false

/-- The cloud assembly produced by the in-process synthesis engine (a black box
to this handler): a list of artifacts and the template of the stack registered
under `STACK_LOGICAL_ID`. -/
structure CloudAssembly where
  artifacts : List Artifact
  template : JValue

/-- Embedding of `PythonCdkBuilder._get_assets_manifest`: the first asset-manifest
artifact among the artifacts, or a `SceptreException` when there is none. -/
def getAssetsManifest (assembly : CloudAssembly) : Except PyError AssetManifestArtifact :=
  match assembly.artifacts.findSome?
      (fun a => match a with | .assetManifest m => some m | .other => none) with
  | some m => .ok m
  | none => .error (.sceptreException "CDK Asset manifest artifact not found")

/-- Embedding of `PythonCdkBuilder._only_asset_is_template`: false when the
docker-images dict is truthy, otherwise the file keys must be exactly the single
template key. -/
def pyOnlyAssetIsTemplate (c : AssetManifestContents) : Bool :=
  if !c.dockerImages.isEmpty then false
  else c.files = [STACK_LOGICAL_ID ++ ".template.json"]

/-- Result of a `build_template` call: the trace of observable actions performed,
and either the returned template or the error raised. -/
structure BuildResult where
  actions : List Action
  result : Except PyError JValue

/-- Embedding of `PythonCdkBuilder.build_template`, generic in the outcome of the
variant-specific `_synthesize` step (an assembly or an error, plus the actions the
synthesis performed). Publishing happens only when the manifest holds more than the
template; command failures propagate raw from `_run_command`. -/
def pythonBuildTemplate (exit : String → Nat) (sessionEnv : EnvMap) (region : String)
    (synth : Except PyError CloudAssembly × List Action) : BuildResult :=
  match synth with
  | (.error e, acts) => ⟨acts, .error e⟩
  | (.ok assembly, acts) =>
    match getAssetsManifest assembly with
    | .error e => ⟨acts, .error e⟩
    | .ok manifestArtifact =>
      if pyOnlyAssetIsTemplate manifestArtifact.contents then
        ⟨acts, .ok assembly.template⟩
      else
        let envs := getEnvs sessionEnv region
        let cmd := Command.publishAssets manifestArtifact.file
        let acts := acts ++ [.runCmd cmd envs none]
        match runCommand exit cmd.render with
        | .error e => ⟨acts, .error e⟩
        | .ok _ => ⟨acts, .ok assembly.template⟩

/-- Embedding of `BootstrappedCdkBuilder._synthesize`: constructs the app and the
stack class and synthesizes; the resulting assembly is supplied by the engine
oracle. -/
def bootstrappedSynthesize (assembly : CloudAssembly) :
    Except PyError CloudAssembly × List Action :=
  (.ok assembly, [.constructStack])

/-- Python message for a keyword argument rejected by a constructor. -/
def unexpectedKwargMsg (key : String) : String :=
  "__init__() got an unexpected keyword argument " ++ key

/-- Wrapping performed in `BootstraplessCdkBuilder._synthesize` when instantiating
the synthesizer raises a `TypeError`. -/
def synthesizerConfigErrorMsg (typeErrMsg : String) : String :=
  "Error encountered attempting to instantiate the BootstraplessSynthesizer with the " ++
    "specified deployment config: " ++ typeErrMsg

/-- Embedding of `BootstraplessCdkBuilder._synthesize`: instantiating the
synthesizer with the bootstrapless config as keyword arguments raises a
`TypeError` on the first unrecognized key, which is caught and re-raised as a
`TemplateHandlerArgumentsInvalidError` chaining the `TypeError`; the stack class
is constructed only when the synthesizer was built. -/
def bootstraplessSynthesize (acceptedKeys : List String)
    (config : List (String × String)) (assembly : CloudAssembly) :
    Except PyError CloudAssembly × List Action :=
  match config.find? (fun kv => !acceptedKeys.contains kv.1) with
  | some kv =>
    let te := PyError.typeError (unexpectedKwargMsg kv.1)
    (.error (.argumentsInvalid (synthesizerConfigErrorMsg (unexpectedKwargMsg kv.1)) (some te)),
      [])
  | none => (.ok assembly, [.constructSynthesizer, .constructStack])

/-- Embedding of `CdkBuilder.build_template` for the bootstrapped variant. -/
def bootstrappedBuildTemplate (exit : String → Nat) (sessionEnv : EnvMap) (region : String)
    (assembly : CloudAssembly) : BuildResult :=
  pythonBuildTemplate exit sessionEnv region (bootstrappedSynthesize assembly)

/-- Embedding of `CdkBuilder.build_template` for the bootstrapless variant. -/
def bootstraplessBuildTemplate (exit : String → Nat) (sessionEnv : EnvMap) (region : String)
    (acceptedKeys : List String) (config : List (String × String))
    (assembly : CloudAssembly) : BuildResult :=
  pythonBuildTemplate exit sessionEnv region (bootstraplessSynthesize acceptedKeys config assembly)

/-- The assets-manifest JSON dict read by `CdkJsonBuilder._get_assets_manifest`:
the keys of the optional `dockerImages` and `files` entries. -/
structure AssetsDict where
  dockerImages : List String
  files : List String
  deriving Repr, DecidableEq

/-- Embedding of `CdkJsonBuilder._only_asset_is_template` over the JSON dict:
false when `assets_dict.get('dockerImages', {})` is truthy, otherwise the keys of
`assets_dict.get('files', {})` must be exactly the single template key. -/
def jsonOnlyAssetIsTemplate (stackLogicalId : String) (d : AssetsDict) : Bool :=
  if !d.dockerImages.isEmpty then false
  else d.files = [stackLogicalId ++ ".template.json"]

/-- Contents of the temporary output directory after a successful `cdk synth` run:
the assets-manifest JSON file (absent when synthesis produced none) and the
template JSON file. Supplied by the external CLI oracle. -/
structure SynthOutput where
  assets : Option AssetsDict
  template : JValue

/-- Embedding of `CdkJsonBuilder.build_template`: warn when user data is truthy,
derive the environment (with `BSS_` variables iff the bootstrapless config is
non-empty), synthesize via the CDK CLI in a temporary output directory, read the
assets manifest (error when absent), publish unless the only asset is the
template, and read back the template file. -/
def cdkJsonBuildTemplate (exit : String → Nat) (sessionEnv : EnvMap) (region : String)
    (cdkJsonDir : String) (stackLogicalId : String)
    (bootstraplessConfig : List (String × String))
    (outputDir : String) (output : SynthOutput)
    (cdkContext : List (String × String)) (userDataTruthy : Bool) : BuildResult :=
  let warnActs : List Action := if userDataTruthy then [.logWarning] else []
  let envs := deriveCdkJsonEnvs sessionEnv region bootstraplessConfig
  let synthCmd := Command.cdkSynth stackLogicalId outputDir cdkContext
  let acts := warnActs ++ [.runCmd synthCmd envs (some cdkJsonDir)]
  match runCommand exit synthCmd.render with
  | .error e => ⟨acts, .error e⟩
  | .ok _ =>
    match output.assets with
    | none => ⟨acts, .error (.sceptreException "CDK Asset manifest artifact not found")⟩
    | some assetsDict =>
      if jsonOnlyAssetIsTemplate stackLogicalId assetsDict then
        ⟨acts, .ok output.template⟩
      else
        let assetsFile := outputDir ++ "/" ++ stackLogicalId ++ ".assets.json"
        let pubCmd := Command.publishAssets assetsFile
        let acts := acts ++ [.runCmd pubCmd envs none]
        match runCommand exit pubCmd.render with
        | .error e => ⟨acts, .error e⟩
        | .ok _ => ⟨acts, .ok output.template⟩

/-! ## Dynamic class importer (`class_importer.py`)

Directories are modelled innermost-first: a directory is the list of its path
components from the directory itself up to the filesystem root, so the parents of
a file whose directory is `revDirs` are exactly the suffixes `revDirs.tails`
(ending with `[]`, the root). The name of a directory is its head component. -/

/-- Python `str.isidentifier` restricted to ASCII: a leading letter or underscore
followed by letters, digits or underscores. -/
def isIdentifier (s : String) : Bool :=
  match s.data with
  | [] => false
  | c :: cs => (c.isAlpha || c = '_') && cs.all (fun d => d.isAlphanum || d = '_')

/-- Python `parent.name`: the innermost component of a directory, empty for the
root. -/
def dirName (dir : List String) : String :=
  dir.headD ""

/-- Walk of the parent loop in `ClassImporter._enable_import_hierarchy`, collecting
in walk order (innermost parent first) the names inserted into the module path
segments. A parent is inserted while the walk is still inside a package structure
and the parent has an `__init__.py` and an identifier name; the first parent
failing the test permanently stops chain growth; the walk breaks after processing
the parent equal to the working directory. -/
def importWalk (hasInit : List String → Bool) (cwd : List String) :
    List (List String) → Bool → List String
  | [], _ => []
  | p :: rest, inPkg =>
    let ok := hasInit p && isIdentifier (dirName p)
    let here := if inPkg && ok then [dirName p] else []
    if p = cwd then here
    else here ++ importWalk hasInit cwd rest (inPkg && ok)

/-- Embedding of `ClassImporter._enable_import_hierarchy`: when the working
directory is not among the parents of the resolved file, the module identity is
the file stem; otherwise it is the dotted join of the collected package-directory
names (outermost first) followed by the stem. -/
def enableImportHierarchy (hasInit : List String → Bool) (cwd : List String)
    (revDirs : List String) (stem : String) : String :=
  if ¬ revDirs.tails.contains cwd then stem
  else String.intercalate "." ((importWalk hasInit cwd revDirs.tails true).reverse ++ [stem])

/-- A stack class resolved by the importer; an opaque identity suffices. -/
abbrev StackClass := String

/-- The state of the module file targeted by `import_class`: whether the file
exists, whether executing it raises, and the attributes the executed module
exposes. -/
structure ModuleFile where
  present : Bool
  execRaises : Option String
  attrs : List (String × StackClass)

/-- Embedding of `ClassImporter.import_class`: a missing file raises the raw
`FileNotFoundError`; an exception during module execution propagates unwrapped
(only the attribute lookup is inside the try block); a missing attribute raises a
`SceptreException` naming the class and the file path. -/
def importClass (file : ModuleFile) (templatePath className : String) :
    Except PyError StackClass :=
  if !file.present then .error (.fileNotFoundError templatePath)
  else
    match file.execRaises with
    | some m => .error (.moduleExecError m)
    | none =>
      match (file.attrs.find? (fun p => p.1 = className)).map (fun p => p.2) with
      | some c => .ok c
      | none =>
        .error (.sceptreException
          ("No class named  " ++ className ++ " on template at " ++ templatePath))

/-! ## Handler dispatch and validation (`cdk.py`) -/

/-- The default stack class name `DEFAULT_CLASS_NAME`. -/
def DEFAULT_CLASS_NAME : String := "CdkStack"

/-- The well-known context key `QUALIFIER_CONTEXT_KEY`. -/
def QUALIFIER_CONTEXT_KEY : String := "@aws-cdk/core:bootstrapQualifier"

/-- Raw handler arguments as the orchestrator sees them: a JSON object. -/
abbrev RawArgs := List (String × JValue)

/-- Lookup of a key in raw arguments. -/
def rawGet (args : RawArgs) (k : String) : Option JValue :=
  (args.find? (fun p => p.1 = k)).map (fun p => p.2)

/-- Whether a JSON value is a string. -/
def JValue.isString : JValue → Bool
  | .str _ => true
  | _ => false

/-- The property names fixed by the sub-schema of `bootstrapless_config`. -/
def bootstraplessConfigPropertyNames : List String :=
  ["file_asset_bucket_name", "file_asset_prefix", "file_asset_publishing_role_arn",
   "file_asset_region_set", "image_asset_account_id", "image_asset_publishing_role_arn",
   "image_asset_region_set", "image_asset_repository_name", "image_asset_tag_prefix",
   "template_bucket_name"]

/-- Per-property validation of `CDK.schema()`: the recognized properties with
their types, the `deployment_type` enum (exactly `bootstrapped` and
`bootstrapless` in the source), and `additionalProperties: False` at both
levels. Unrecognized keys fail. -/
def propertyOk (k : String) (v : JValue) : Bool :=
  if k = "path" then v.isString
  else if k = "deployment_type" then
    match v with
    | .str s => s = "bootstrapped" || s = "bootstrapless"
    | _ => false
  else if k = "bootstrap_qualifier" then v.isString
  else if k = "context" then
    match v with
    | .obj _ => true
    | _ => false
  else if k = "class_name" then v.isString
  else if k = "stack_logical_id" then v.isString
  else if k = "bootstrapless_config" then
    match v with
    | .obj fields =>
      fields.all (fun p => bootstraplessConfigPropertyNames.contains p.1 && p.2.isString)
    | _ => false
  else false

/-- Embedding of jsonschema validation against `CDK.schema()`: every present
property validates and the required properties `path` and `deployment_type` are
present. -/
def schemaAccepts (args : RawArgs) : Bool :=
  args.all (fun p => propertyOk p.1 p.2)
    && (rawGet args "path").isSome && (rawGet args "deployment_type").isSome

/-- Typed handler arguments: the shape read by the property accessors of `CDK`.
Optional fields are `none` when the argument was not supplied. -/
structure CdkArgs where
  path : String
  deployment_type : String
  bootstrap_qualifier : Option String := none
  context : Option (List (String × JValue)) := none
  class_name : Option String := none
  stack_logical_id : Option String := none
  bootstrapless_config : Option (List (String × String)) := none

/-- Re-encoding of typed arguments as the raw JSON object handed to jsonschema
validation by the orchestrator. -/
def CdkArgs.toRaw (a : CdkArgs) : RawArgs :=
  [("path", .str a.path), ("deployment_type", .str a.deployment_type)]
    ++ (match a.bootstrap_qualifier with
        | some q => [("bootstrap_qualifier", JValue.str q)]
        | none => [])
    ++ (match a.context with
        | some c => [("context", JValue.obj c)]
        | none => [])
    ++ (match a.class_name with
        | some c => [("class_name", JValue.str c)]
        | none => [])
    ++ (match a.stack_logical_id with
        | some s => [("stack_logical_id", JValue.str s)]
        | none => [])
    ++ (match a.bootstrapless_config with
        | some c => [("bootstrapless_config", JValue.obj (c.map (fun p => (p.1, JValue.str p.2))))]
        | none => [])

/-- Accessor `CDK.cdk_context`: `arguments.get('context', {})`. -/
def CdkArgs.cdkContext (a : CdkArgs) : List (String × JValue) :=
  a.context.getD []

/-- Accessor `CDK.cdk_class_name`: `arguments.get('class_name', DEFAULT_CLASS_NAME)`. -/
def CdkArgs.cdkClassName (a : CdkArgs) : String :=
  a.class_name.getD DEFAULT_CLASS_NAME

/-- Accessor `CDK.bootstrapless_config`: `arguments.get('bootstrapless_config', {})`. -/
def CdkArgs.bootstraplessConfig (a : CdkArgs) : List (String × String) :=
  a.bootstrapless_config.getD []

/-- Python truthiness of an optional string: `None` and the empty string are
falsy. -/
def optStrTruthy : Option String → Bool
  | some s => s ≠ ""
  | none => false

/-- Split of a character list at every occurrence of a separator (the list
analogue of `str.split(sep)`). -/
def splitOnChar (sep : Char) : List Char → List (List Char)
  | [] => [[]]
  | c :: rest =>
    let r := splitOnChar sep rest
    if c = sep then [] :: r
    else
      match r with
      | [] => [[c]]
      | h :: t => (c :: h) :: t

/-- The components of a slash-separated path. -/
def pathComponents (p : String) : List String :=
  (splitOnChar '/' p.data).map (fun cs => String.mk cs)

/-- The file-name component of a path (`Path.name`). -/
def pathName (p : String) : String :=
  (pathComponents p).getLastD p

/-- The parent directory of a path. -/
def pathParent (p : String) : String :=
  String.intercalate "/" ((pathComponents p).dropLast)

/-- The extension of a file name (`Path.suffix`): the final dot-separated part
with its dot, empty when there is no dot after the first character. -/
def pathSuffix (name : String) : String :=
  match splitOnChar '.' name.data with
  | [] => ""
  | [_] => ""
  | first :: rest =>
    if first.isEmpty && rest.length = 1 then ""
    else String.mk ('.' :: rest.getLastD [])

/-- Accessor `CDK.path_is_to_cdk_json`. -/
def CdkArgs.pathIsToCdkJson (a : CdkArgs) : Bool :=
  strLower (pathName a.path) = "cdk.json"

/-- Accessor `CDK.path_is_to_python_file`. -/
def CdkArgs.pathIsToPythonFile (a : CdkArgs) : Bool :=
  pathSuffix (pathName a.path) = ".py"

/-- Key membership in a context object. -/
def ctxHasKey (ctx : List (String × JValue)) (k : String) : Bool :=
  ctx.any (fun p => p.1 = k)

/-- Python dict item assignment on a context object. -/
def ctxSet (ctx : List (String × JValue)) (k : String) (v : JValue) :
    List (String × JValue) :=
  if ctxHasKey ctx k then ctx.map (fun p => if p.1 = k then (k, v) else p)
  else ctx ++ [(k, v)]

/-- Embedding of `CDK._make_context_to_use`: an existing qualifier key is left
untouched; otherwise a truthy `bootstrap_qualifier` argument is injected under the
well-known key; otherwise the context is returned unchanged. -/
def makeContextToUse (cdkContext : List (String × JValue))
    (bootstrapQualifier : Option String) : List (String × JValue) :=
  if ctxHasKey cdkContext QUALIFIER_CONTEXT_KEY then cdkContext
  else if optStrTruthy bootstrapQualifier then
    ctxSet cdkContext QUALIFIER_CONTEXT_KEY (JValue.str (bootstrapQualifier.getD ""))
  else cdkContext

/-- Message of the nested-context-value rejection in `CDK._check_cdk_json`. -/
def nestedContextMsg : String :=
  "You cannot use nested values within your CDK context when your path is to a cdk.json " ++
    "file. If you need to specify such values, put them in the context of your cdk.json " ++
    "file."

/-- Message of the missing `stack_logical_id` rejection in `CDK._check_cdk_json`. -/
def missingLogicalIdMsg : String :=
  "You must specify the stack_logical_id of the stack in your app in order to use the " ++
    "use a cdk.json file with the CDK handler."

/-- Message of the path-kind rejection in `CDK.validate`. -/
def pathKindMsg : String :=
  "The path argument must either reference a Python file with a CDK Stack class or a " ++
    "cdk.json file at the root of a CDK project."

/-- Message of the bootstrapped-with-bootstrapless-config rejection in `CDK.validate`. -/
def bootstrappedConfigMsg : String :=
  "You cannot specify a bootstrapless_config with the bootstrapped deployment_type"

/-- Message of the bootstrapless-with-qualifier rejection in `CDK.validate`. -/
def bootstraplessQualifierMsg : String :=
  "You cannot specify a bootstrap_qualifier with the bootstrapless deployment_type"

/-- Embedding of `CDK._check_cdk_json`: a truthy context containing a nested
(list or dict) value is rejected, then a missing `stack_logical_id` is rejected. -/
def checkCdkJson (a : CdkArgs) : Except PyError Unit :=
  if !a.cdkContext.isEmpty && a.cdkContext.any (fun p => p.2.isNested) then
    .error (.argumentsInvalid nestedContextMsg none)
  else if a.stack_logical_id.isNone then
    .error (.argumentsInvalid missingLogicalIdMsg none)
  else .ok ()

/-- Embedding of `CDK._check_prerequisites`: the commands `node` and `npx` and the
node package `cdk-assets` must exist, in that order. -/
def checkPrerequisites (cmdExists pkgExists : String → Bool) : Except PyError Unit :=
  if !cmdExists "node" then
    .error (.sceptreException "Command prerequisite 'node' not found")
  else if !cmdExists "npx" then
    .error (.sceptreException "Command prerequisite 'npx' not found")
  else if !pkgExists "cdk-assets" then
    .error (.sceptreException "Node Package prerequisite 'cdk-assets' not found")
  else .ok ()

/-- Embedding of `CDK.validate`: prerequisites first, then the cdk.json checks or
the path-kind check, then the two incompatible-combination checks, and finally
`super().validate()`, which validates the raw arguments against the schema. -/
def validate (cmdExists pkgExists : String → Bool) (a : CdkArgs) : Except PyError Unit :=
  match checkPrerequisites cmdExists pkgExists with
  | .error e => .error e
  | .ok _ =>
    match (if a.pathIsToCdkJson then checkCdkJson a
           else if !a.pathIsToPythonFile then .error (.argumentsInvalid pathKindMsg none)
           else .ok ()) with
    | .error e => .error e
    | .ok _ =>
      if a.deployment_type = "bootstrapped" && !a.bootstraplessConfig.isEmpty then
        .error (.argumentsInvalid bootstrappedConfigMsg none)
      else if a.deployment_type = "bootstrapless" && optStrTruthy a.bootstrap_qualifier then
        .error (.argumentsInvalid bootstraplessQualifierMsg none)
      else if schemaAccepts a.toRaw then .ok ()
      else .error (.argumentsInvalid "arguments do not match the template handler schema" none)

/-- Oracles standing for the external collaborators of one handler invocation:
the command checker results, the subprocess exit codes, the connection manager
session environment and region, the module file targeted by the importer, the
assembly returned by the in-process engine, the keyword arguments the external
synthesizer constructor accepts, and the CLI synthesis output. -/
structure Oracles where
  cmdExists : String → Bool
  pkgExists : String → Bool
  exit : String → Nat
  sessionEnv : EnvMap
  region : String
  moduleFile : ModuleFile
  assembly : CloudAssembly
  acceptedSynthKeys : List String
  outputDir : String
  synthOutput : SynthOutput

/-- Embedding of `CDK.handle`: dispatch on the path and the deployment type,
importing the stack class for the in-process variants, and building the template
with the selected builder using the context from `_make_context_to_use`. -/
def handle (o : Oracles) (a : CdkArgs) (userDataTruthy : Bool) :
    Except PyError JValue × List Action :=
  if a.pathIsToCdkJson then
    let ctxPairs := (makeContextToUse a.cdkContext a.bootstrap_qualifier).map
      (fun p => (p.1, p.2.pyStr))
    let r := cdkJsonBuildTemplate o.exit o.sessionEnv o.region
      (pathParent a.path) (a.stack_logical_id.getD "None") a.bootstraplessConfig
      o.outputDir o.synthOutput ctxPairs userDataTruthy
    (r.result, r.actions)
  else if a.deployment_type = "bootstrapped" then
    let importActs : List Action := [.importStackClass a.path a.cdkClassName]
    match importClass o.moduleFile a.path a.cdkClassName with
    | .error e => (.error e, importActs)
    | .ok _ =>
      let r := bootstrappedBuildTemplate o.exit o.sessionEnv o.region o.assembly
      (r.result, importActs ++ r.actions)
  else if a.deployment_type = "bootstrapless" then
    let importActs : List Action := [.importStackClass a.path a.cdkClassName]
    match importClass o.moduleFile a.path a.cdkClassName with
    | .error e => (.error e, importActs)
    | .ok _ =>
      let r := bootstraplessBuildTemplate o.exit o.sessionEnv o.region
        o.acceptedSynthKeys a.bootstraplessConfig o.assembly
      (r.result, importActs ++ r.actions)
  else
    (.error (.valueError "deployment_type must be 'bootstrapped' or 'bootstrapless'"), [])

/-- The validation step followed by the handling step, as the orchestrator runs
them: a validation error prevents any handling action. -/
def validateThenHandle (o : Oracles) (a : CdkArgs) (userDataTruthy : Bool) :
    Except PyError JValue × List Action :=
  match validate o.cmdExists o.pkgExists a with
  | .error e => (.error e, [])
  | .ok _ => handle o a userDataTruthy

/-! ## Lemmas about the environment mapping -/

/-- Recursion equation for lookup. -/
theorem envLookup_cons (p : String × String) (t : EnvMap) (k : String) :
    envLookup (p :: t) k = if p.1 = k then some p.2 else envLookup t k := by
  simp only [envLookup, List.find?_cons]
  by_cases h : p.1 = k <;> simp [h]

/-- Recursion equation for key membership. -/
theorem envHasKey_cons (p : String × String) (t : EnvMap) (k : String) :
    envHasKey (p :: t) k = (p.1 = k || envHasKey t k) := by
  simp [envHasKey]

/-- Key membership is the same as a successful lookup. -/
theorem envHasKey_eq_isSome (m : EnvMap) (k : String) :
    envHasKey m k = (envLookup m k).isSome := by
  induction m with
  | nil => rfl
  | cons p t ih =>
    rw [envHasKey_cons, envLookup_cons, ih]
    by_cases h : p.1 = k <;> simp [h]

/-- Lookup distributes over the in-place update branch of a dict assignment. -/
theorem envLookup_map_set (m : EnvMap) (k v k' : String) :
    envLookup (m.map (fun p => if p.1 = k then (k, v) else p)) k'
      = if k' = k then (envLookup m k).map (fun _ => v) else envLookup m k' := by
  induction m with
  | nil => by_cases h : k' = k <;> simp [envLookup, h]
  | cons p t ih =>
    simp only [List.map_cons, envLookup_cons]
    by_cases hp : p.1 = k <;> by_cases hk : k' = k
    · simp [hp, hk]
    · have hk' : ¬ k = k' := fun hc => hk hc.symm
      have hpk' : ¬ p.1 = k' := by rw [hp]; exact hk'
      simp [hp, hk, hk', hpk', ih]
    · subst hk
      simp [hp, ih]
    · simp [hp, hk, ih]

/-- Lookup after a dict assignment: the assigned key reads back the new value and
every other key is unchanged. -/
theorem envLookup_envSet (m : EnvMap) (k v k' : String) :
    envLookup (envSet m k v) k' = if k' = k then some v else envLookup m k' := by
  unfold envSet
  by_cases h : m.any (fun p => p.1 = k)
  · rw [if_pos h, envLookup_map_set]
    by_cases hk : k' = k
    · have hs : (envLookup m k).isSome := by
        rw [← envHasKey_eq_isSome]
        simpa [envHasKey] using h
      obtain ⟨w, hw⟩ := Option.isSome_iff_exists.mp hs
      simp [hk, hw]
    · simp [hk]
  · rw [if_neg h]
    have hfind : m.find? (fun p => decide (p.1 = k)) = none := by
      rw [List.find?_eq_none]
      intro p hp
      simp only [Bool.not_eq_true, decide_eq_false_iff_not]
      intro hc
      exact h (List.any_eq_true.mpr ⟨p, hp, by simp [hc]⟩)
    simp only [envLookup, List.find?_append]
    by_cases hk : k' = k
    · subst hk
      simp [hfind, List.find?_cons]
    · have hkk : ¬ (k = k') := fun hc => hk hc.symm
      have hone : List.find? (fun p => decide (p.1 = k')) [(k, v)] = none := by
        simp [List.find?_cons, hkk]
      rw [hone, Option.or_none, if_neg hk]

/-- The uppercased, prefixed environment-variable names produced for a
bootstrapless config. -/
def bssNames (config : List (String × String)) : List String :=
  config.map (fun kv => "BSS_" ++ strUpper kv.1)

/-- Recursion equation for the bootstrapless-variable fold. -/
theorem addBootstrapless_cons (m : EnvMap) (kv : String × String)
    (t : List (String × String)) :
    addBootstraplessEnvs m (kv :: t)
      = addBootstraplessEnvs (envSet m ("BSS_" ++ strUpper kv.1) kv.2) t := rfl

/-- Adding bootstrapless variables does not change the binding of any key that is
not one of the produced variable names. -/
theorem envLookup_addBootstrapless_not_mem (config : List (String × String))
    (m : EnvMap) (k : String) (h : k ∉ bssNames config) :
    envLookup (addBootstraplessEnvs m config) k = envLookup m k := by
  induction config generalizing m with
  | nil => rfl
  | cons kv t ih =>
    simp only [bssNames, List.map_cons, List.mem_cons, not_or] at h
    rw [addBootstrapless_cons, ih _ (by simpa [bssNames] using h.2), envLookup_envSet,
      if_neg h.1]

/-- A key present in the mapping stays present after a dict assignment. -/
theorem envHasKey_envSet_of (m : EnvMap) (k v k' : String)
    (h : envHasKey m k' = true) : envHasKey (envSet m k v) k' = true := by
  rw [envHasKey_eq_isSome] at h ⊢
  rw [envLookup_envSet]
  by_cases hk : k' = k <;> simp_all

/-- A key present in the mapping stays present after adding the bootstrapless
variables. -/
theorem envHasKey_addBootstrapless_of (config : List (String × String))
    (m : EnvMap) (k : String) (h : envHasKey m k = true) :
    envHasKey (addBootstraplessEnvs m config) k = true := by
  induction config generalizing m with
  | nil => exact h
  | cons kv t ih =>
    rw [addBootstrapless_cons]
    exact ih _ (envHasKey_envSet_of _ _ _ _ h)

/-- Every bootstrapless-config entry contributes its variable name to the derived
mapping. -/
theorem envHasKey_addBootstrapless_mem (config : List (String × String))
    (kv : String × String) (h : kv ∈ config) (m : EnvMap) :
    envHasKey (addBootstraplessEnvs m config) ("BSS_" ++ strUpper kv.1) = true := by
  induction config generalizing m with
  | nil => cases h
  | cons hd t ih =>
    rw [addBootstrapless_cons]
    rcases List.mem_cons.mp h with heq | hmem
    · subst heq
      apply envHasKey_addBootstrapless_of
      rw [envHasKey_eq_isSome, envLookup_envSet]
      simp
    · exact ih hmem _

/-- Region lookup and pass-through lookups for the base environment derivation. -/
theorem envLookup_getEnvs (base : EnvMap) (region k : String) :
    envLookup (getEnvs base region) k
      = if k = "CDK_DEFAULT_REGION" then some region else envLookup base k := by
  unfold getEnvs
  exact envLookup_envSet base "CDK_DEFAULT_REGION" region k

/-- No bootstrapless variable name collides with the region variable. -/
theorem bss_ne_region (x : String) : "BSS_" ++ x ≠ "CDK_DEFAULT_REGION" := by
  intro h
  have h2 : ("BSS_" ++ x).data = "CDK_DEFAULT_REGION".data := congrArg String.data h
  rw [String.data_append "BSS_" x] at h2
  have hb : "BSS_".data = ['B', 'S', 'S', '_'] := rfl
  rw [hb] at h2
  have hr : "CDK_DEFAULT_REGION".data =
      ['C', 'D', 'K', '_', 'D', 'E', 'F', 'A', 'U', 'L', 'T', '_',
       'R', 'E', 'G', 'I', 'O', 'N'] := rfl
  rw [hr] at h2
  simp at h2

/-- The region variable is not one of the bootstrapless variable names. -/
theorem region_not_mem_bssNames (config : List (String × String)) :
    "CDK_DEFAULT_REGION" ∉ bssNames config := by
  intro h
  obtain ⟨kv, _, hkv⟩ := List.mem_map.mp h
  exact bss_ne_region (strUpper kv.1) hkv

/-- C5: for every session base environment and region, the derived environment
equals the base overlaid with exactly the CDK_DEFAULT_REGION entry; in the
cdk.json variant the BSS_ variables are layered on top if and only if the
bootstrapless configuration is non-empty, every config entry contributes its
uppercased BSS_ key, and no other binding changes. -/
theorem C5_environment_derivation (base : EnvMap) (region : String)
    (config : List (String × String)) :
    (∀ k, envLookup (getEnvs base region) k
        = if k = "CDK_DEFAULT_REGION" then some region else envLookup base k)
    ∧ deriveCdkJsonEnvs base region [] = getEnvs base region
    ∧ (config ≠ [] →
        deriveCdkJsonEnvs base region config
          = addBootstraplessEnvs (getEnvs base region) config)
    ∧ envLookup (deriveCdkJsonEnvs base region config) "CDK_DEFAULT_REGION" = some region
    ∧ (∀ k, k ∉ bssNames config → k ≠ "CDK_DEFAULT_REGION" →
        envLookup (deriveCdkJsonEnvs base region config) k = envLookup base k)
    ∧ (∀ kv ∈ config,
        envHasKey (deriveCdkJsonEnvs base region config) ("BSS_" ++ strUpper kv.1) = true) := by
  have hderive : ∀ cfg : List (String × String), cfg ≠ [] →
      deriveCdkJsonEnvs base region cfg = addBootstraplessEnvs (getEnvs base region) cfg := by
    intro cfg hcfg
    unfold deriveCdkJsonEnvs
    simp [List.isEmpty_iff, hcfg]
  refine ⟨envLookup_getEnvs base region, rfl, hderive config, ?_, ?_, ?_⟩
  · rcases eq_or_ne config [] with hc | hc
    · subst hc
      simp [deriveCdkJsonEnvs, envLookup_getEnvs]
    · rw [hderive config hc,
        envLookup_addBootstrapless_not_mem config _ _ (region_not_mem_bssNames config),
        envLookup_getEnvs]
      simp
  · intro k hbss hreg
    rcases eq_or_ne config [] with hc | hc
    · subst hc
      simp [deriveCdkJsonEnvs, envLookup_getEnvs, hreg]
    · rw [hderive config hc, envLookup_addBootstrapless_not_mem config _ _ hbss,
        envLookup_getEnvs, if_neg hreg]
  · intro kv hkv
    have hc : config ≠ [] := by
      intro h
      subst h
      cases hkv
    rw [hderive config hc]
    exact envHasKey_addBootstrapless_mem config kv hkv _

/-- Witness for C5 at a concrete base environment, region and configuration. -/
theorem C5_environment_derivation_witness :
    ([("bucket", "b")] : List (String × String)) ≠ []
    ∧ deriveCdkJsonEnvs [("PATH", "p")] "us-east-1" [("bucket", "b")]
        = addBootstraplessEnvs (getEnvs [("PATH", "p")] "us-east-1") [("bucket", "b")]
    ∧ envLookup (deriveCdkJsonEnvs [("PATH", "p")] "us-east-1" [("bucket", "b")]) "PATH"
        = envLookup [("PATH", "p")] "PATH"
    ∧ envHasKey (deriveCdkJsonEnvs [("PATH", "p")] "us-east-1" [("bucket", "b")])
        ("BSS_" ++ strUpper ("bucket", "b").1) = true :=
  ⟨by decide,
   (C5_environment_derivation [("PATH", "p")] "us-east-1" [("bucket", "b")]).2.2.1 (by decide),
   (C5_environment_derivation [("PATH", "p")] "us-east-1" [("bucket", "b")]).2.2.2.2.1
     "PATH" (by decide) (by decide),
   (C5_environment_derivation [("PATH", "p")] "us-east-1" [("bucket", "b")]).2.2.2.2.2
     ("bucket", "b") (by decide)⟩

/-- C4 counterexample: with an empty context and a supplied but empty
bootstrap_qualifier, the code leaves the context unchanged (Python truthiness),
while the claim demands the qualifier key be added whenever a setting was
supplied. -/
theorem C4_counterexample :
    makeContextToUse [] (some "") = []
    ∧ ([] : List (String × JValue)) ≠ [(QUALIFIER_CONTEXT_KEY, JValue.str "")] :=
  ⟨rfl, by simp⟩

/-- C4 (amended): an existing qualifier key is never overwritten; with no
qualifier key present, the key is appended exactly when the supplied
bootstrap_qualifier is truthy (non-empty), and the context is returned unchanged
otherwise. -/
theorem C4_qualifier_injection (ctx : List (String × JValue)) (q : Option String) :
    (ctxHasKey ctx QUALIFIER_CONTEXT_KEY = true → makeContextToUse ctx q = ctx)
    ∧ (ctxHasKey ctx QUALIFIER_CONTEXT_KEY = false → optStrTruthy q = true →
        makeContextToUse ctx q = ctx ++ [(QUALIFIER_CONTEXT_KEY, JValue.str (q.getD ""))])
    ∧ (ctxHasKey ctx QUALIFIER_CONTEXT_KEY = false → optStrTruthy q = false →
        makeContextToUse ctx q = ctx) := by
  refine ⟨?_, ?_, ?_⟩
  · intro h
    simp [makeContextToUse, h]
  · intro h hq
    simp [makeContextToUse, ctxSet, h, hq]
  · intro h hq
    simp [makeContextToUse, h, hq]

/-- Witness for C4 at a context holding a qualifier and at an empty context with
a truthy qualifier. -/
theorem C4_qualifier_injection_witness :
    ctxHasKey [(QUALIFIER_CONTEXT_KEY, JValue.str "keep")] QUALIFIER_CONTEXT_KEY = true
    ∧ makeContextToUse [(QUALIFIER_CONTEXT_KEY, JValue.str "keep")] (some "q2")
        = [(QUALIFIER_CONTEXT_KEY, JValue.str "keep")]
    ∧ ctxHasKey [] QUALIFIER_CONTEXT_KEY = false
    ∧ optStrTruthy (some "q") = true
    ∧ makeContextToUse [] (some "q")
        = [] ++ [(QUALIFIER_CONTEXT_KEY, JValue.str ((some "q").getD ""))] :=
  ⟨rfl,
   (C4_qualifier_injection [(QUALIFIER_CONTEXT_KEY, JValue.str "keep")] (some "q2")).1 rfl,
   rfl, by decide,
   (C4_qualifier_injection [] (some "q")).2.1 rfl (by decide)⟩

/-! ## Lemmas about the builders -/

/-- Characterization of the skip predicate of the in-process variants. -/
theorem pyOnly_eq_true_iff (c : AssetManifestContents) :
    pyOnlyAssetIsTemplate c = true
      ↔ (c.dockerImages = [] ∧ c.files = [STACK_LOGICAL_ID ++ ".template.json"]) := by
  obtain ⟨di, fs⟩ := c
  cases di <;> simp [pyOnlyAssetIsTemplate]

/-- Characterization of the skip predicate of the cdk.json variant. -/
theorem jsonOnly_eq_true_iff (sid : String) (d : AssetsDict) :
    jsonOnlyAssetIsTemplate sid d = true
      ↔ (d.dockerImages = [] ∧ d.files = [sid ++ ".template.json"]) := by
  obtain ⟨di, fs⟩ := d
  cases di <;> simp [jsonOnlyAssetIsTemplate]

/-- Publish count of an appended trace. -/
theorem countPublish_append (a b : List Action) :
    countPublish (a ++ b) = countPublish a + countPublish b :=
  List.countP_append _ _ _

/-- A zero exit status makes a command run succeed. -/
theorem runCommand_ok (exit : String → Nat) (c : String) (h : exit c = 0) :
    runCommand exit c = .ok () := by
  simp [runCommand, h]

/-- A non-zero exit status surfaces as the raw called-process error. -/
theorem runCommand_fail (exit : String → Nat) (c : String) (h : exit c ≠ 0) :
    runCommand exit c = .error (.calledProcessError (exit c) c) := by
  simp [runCommand, h]

/-- A missing asset-manifest artifact makes manifest lookup fail. -/
theorem getAssetsManifest_eq_error (assembly : CloudAssembly)
    (h : ∀ art ∈ assembly.artifacts, art.isAssetManifest = false) :
    getAssetsManifest assembly
      = .error (.sceptreException "CDK Asset manifest artifact not found") := by
  unfold getAssetsManifest
  have hnone : assembly.artifacts.findSome?
      (fun a => match a with | .assetManifest m => some m | .other => none) = none := by
    rw [List.findSome?_eq_none_iff]
    intro a ha
    cases a with
    | assetManifest m => exact absurd (h _ ha) (by simp [Artifact.isAssetManifest])
    | other => rfl
  rw [hnone]

/-- C1: a build publishes nothing exactly when the manifest has no image asset
and its file keys are exactly the single template key; every other manifest leads
to exactly one publish invocation. Stated for the in-process builder variants
(attribute-based manifest) and for the cdk.json variant (JSON dict). -/
theorem C1_manifest_skip (exit : String → Nat) (base : EnvMap) (region : String)
    (assembly : CloudAssembly) (m : AssetManifestArtifact)
    (hm : getAssetsManifest assembly = .ok m)
    (accepted : List String) (bconfig : List (String × String))
    (hball : ∀ kv ∈ bconfig, accepted.contains kv.1 = true)
    (cdkJsonDir stackLogicalId : String) (config : List (String × String))
    (outputDir : String) (output : SynthOutput) (d : AssetsDict)
    (ctx : List (String × String)) (ud : Bool)
    (hsynth : exit (Command.cdkSynth stackLogicalId outputDir ctx).render = 0)
    (hassets : output.assets = some d) :
    countPublish (bootstrappedBuildTemplate exit base region assembly).actions
      = (if m.contents.dockerImages = []
            ∧ m.contents.files = [STACK_LOGICAL_ID ++ ".template.json"]
         then 0 else 1)
    ∧ countPublish
        (bootstraplessBuildTemplate exit base region accepted bconfig assembly).actions
      = (if m.contents.dockerImages = []
            ∧ m.contents.files = [STACK_LOGICAL_ID ++ ".template.json"]
         then 0 else 1)
    ∧ countPublish (cdkJsonBuildTemplate exit base region cdkJsonDir stackLogicalId config
          outputDir output ctx ud).actions
      = (if d.dockerImages = [] ∧ d.files = [stackLogicalId ++ ".template.json"]
         then 0 else 1) := by
  refine ⟨?_, ?_, ?_⟩
  · simp only [bootstrappedBuildTemplate, pythonBuildTemplate, bootstrappedSynthesize, hm]
    by_cases hskip : pyOnlyAssetIsTemplate m.contents = true
    · rw [if_pos ((pyOnly_eq_true_iff m.contents).mp hskip)]
      simp [hskip, countPublish]
    · rw [if_neg (fun hc => hskip ((pyOnly_eq_true_iff m.contents).mpr hc))]
      rcases hrc : runCommand exit (Command.publishAssets m.file).render with e | u <;>
        simp [hskip, hrc, countPublish, Command.isPublish]
  · have hfind : bconfig.find? (fun kv => !accepted.contains kv.1) = none := by
      rw [List.find?_eq_none]
      intro kv hkv
      rw [hball kv hkv]
      simp
    simp only [bootstraplessBuildTemplate, pythonBuildTemplate, bootstraplessSynthesize,
      hfind, hm]
    by_cases hskip : pyOnlyAssetIsTemplate m.contents = true
    · rw [if_pos ((pyOnly_eq_true_iff m.contents).mp hskip)]
      simp [hskip, countPublish]
    · rw [if_neg (fun hc => hskip ((pyOnly_eq_true_iff m.contents).mpr hc))]
      rcases hrc : runCommand exit (Command.publishAssets m.file).render with e | u <;>
        simp [hskip, hrc, countPublish, Command.isPublish]
  · simp only [cdkJsonBuildTemplate, runCommand_ok exit _ hsynth, hassets]
    by_cases hskip : jsonOnlyAssetIsTemplate stackLogicalId d = true
    · rw [if_pos ((jsonOnly_eq_true_iff stackLogicalId d).mp hskip)]
      cases ud <;> simp [hskip, countPublish, Command.isPublish]
    · rw [if_neg (fun hc => hskip ((jsonOnly_eq_true_iff stackLogicalId d).mpr hc))]
      by_cases hexit : exit (Command.publishAssets
          (outputDir ++ "/" ++ stackLogicalId ++ ".assets.json")).render = 0 <;>
        cases ud <;>
        simp [hskip, hexit, runCommand, countPublish, Command.isPublish]

/-- Concrete manifest fixture for the C1 witness: the only asset is the template. -/
def c1Manifest : AssetManifestArtifact :=
  ⟨⟨[], ["CDKStack.template.json"]⟩, "assets.json"⟩

/-- Concrete assembly fixture for the C1 witness. -/
def c1Assembly : CloudAssembly :=
  ⟨[Artifact.assetManifest c1Manifest], JValue.obj []⟩

/-- Concrete cdk.json assets fixture for the C1 witness: an extra file asset. -/
def c1Assets : AssetsDict :=
  ⟨[], ["Stk.template.json", "extra.zip"]⟩

/-- Concrete synthesis output fixture for the C1 witness. -/
def c1Output : SynthOutput :=
  ⟨some c1Assets, JValue.obj []⟩

/-- Witness for C1: a manifest holding only the template key publishes nothing;
one with an extra file asset publishes once. -/
theorem C1_manifest_skip_witness :
    getAssetsManifest c1Assembly = Except.ok c1Manifest
    ∧ (∀ kv ∈ ([] : List (String × String)), (([] : List String).contains kv.1) = true)
    ∧ (fun _ => 0 : String → Nat) (Command.cdkSynth "Stk" "/tmp/out" []).render = 0
    ∧ c1Output.assets = some c1Assets
    ∧ countPublish (bootstrappedBuildTemplate (fun _ => 0) [] "r" c1Assembly).actions
      = (if c1Manifest.contents.dockerImages = []
            ∧ c1Manifest.contents.files = [STACK_LOGICAL_ID ++ ".template.json"]
         then 0 else 1)
    ∧ countPublish (bootstraplessBuildTemplate (fun _ => 0) [] "r" [] [] c1Assembly).actions
      = (if c1Manifest.contents.dockerImages = []
            ∧ c1Manifest.contents.files = [STACK_LOGICAL_ID ++ ".template.json"]
         then 0 else 1)
    ∧ countPublish (cdkJsonBuildTemplate (fun _ => 0) [] "r" "/proj" "Stk" []
          "/tmp/out" c1Output [] false).actions
      = (if c1Assets.dockerImages = [] ∧ c1Assets.files = ["Stk" ++ ".template.json"]
         then 0 else 1) :=
  ⟨rfl, (by intro kv hkv; cases hkv), rfl, rfl,
   (C1_manifest_skip (fun _ => 0) [] "r" c1Assembly c1Manifest rfl [] []
      (by intro kv hkv; cases hkv) "/proj" "Stk" [] "/tmp/out" c1Output c1Assets []
      false rfl rfl).1,
   (C1_manifest_skip (fun _ => 0) [] "r" c1Assembly c1Manifest rfl [] []
      (by intro kv hkv; cases hkv) "/proj" "Stk" [] "/tmp/out" c1Output c1Assets []
      false rfl rfl).2.1,
   (C1_manifest_skip (fun _ => 0) [] "r" c1Assembly c1Manifest rfl [] []
      (by intro kv hkv; cases hkv) "/proj" "Stk" [] "/tmp/out" c1Output c1Assets []
      false rfl rfl).2.2⟩

/-- C9: when synthesis yields no discoverable asset manifest (no asset-manifest
artifact for the in-process variants, no assets-manifest file for the cdk.json
variant), build_template raises the manifest-not-found error, returns no
template, publishes nothing and retries nothing (the trace ends at the failed
lookup). -/
theorem C9_manifest_missing (exit : String → Nat) (base : EnvMap) (region : String)
    (assembly : CloudAssembly)
    (hno : ∀ art ∈ assembly.artifacts, art.isAssetManifest = false)
    (cdkJsonDir stackLogicalId : String) (config : List (String × String))
    (outputDir : String) (output : SynthOutput) (ctx : List (String × String)) (ud : Bool)
    (hsynth : exit (Command.cdkSynth stackLogicalId outputDir ctx).render = 0)
    (hnone : output.assets = none) :
    (bootstrappedBuildTemplate exit base region assembly).result
      = .error (.sceptreException "CDK Asset manifest artifact not found")
    ∧ (bootstrappedBuildTemplate exit base region assembly).actions = [.constructStack]
    ∧ (cdkJsonBuildTemplate exit base region cdkJsonDir stackLogicalId config
        outputDir output ctx ud).result
      = .error (.sceptreException "CDK Asset manifest artifact not found")
    ∧ (cdkJsonBuildTemplate exit base region cdkJsonDir stackLogicalId config
        outputDir output ctx ud).actions
      = (if ud then [Action.logWarning] else [])
        ++ [Action.runCmd (Command.cdkSynth stackLogicalId outputDir ctx)
              (deriveCdkJsonEnvs base region config) (some cdkJsonDir)] := by
  have herr := getAssetsManifest_eq_error assembly hno
  refine ⟨?_, ?_, ?_, ?_⟩
  · simp [bootstrappedBuildTemplate, pythonBuildTemplate, bootstrappedSynthesize, herr]
  · simp [bootstrappedBuildTemplate, pythonBuildTemplate, bootstrappedSynthesize, herr]
  · simp [cdkJsonBuildTemplate, runCommand_ok exit _ hsynth, hnone]
  · cases ud <;>
      simp [cdkJsonBuildTemplate, runCommand_ok exit _ hsynth, hnone]

/-- Concrete assembly fixture for the C9 witness: artifacts without a manifest. -/
def c9Assembly : CloudAssembly :=
  ⟨[Artifact.other], JValue.obj []⟩

/-- Concrete synthesis output fixture for the C9 witness: no assets file. -/
def c9Output : SynthOutput :=
  ⟨none, JValue.obj []⟩

/-- Witness for C9 at concrete inputs. -/
theorem C9_manifest_missing_witness :
    (∀ art ∈ c9Assembly.artifacts, art.isAssetManifest = false)
    ∧ (fun _ => 0 : String → Nat) (Command.cdkSynth "Stk" "/tmp/out" []).render = 0
    ∧ c9Output.assets = none
    ∧ (bootstrappedBuildTemplate (fun _ => 0) [] "r" c9Assembly).result
      = .error (.sceptreException "CDK Asset manifest artifact not found")
    ∧ (cdkJsonBuildTemplate (fun _ => 0) [] "r" "/proj" "Stk" [] "/tmp/out"
        c9Output [] false).result
      = .error (.sceptreException "CDK Asset manifest artifact not found") := by
  have h9 := C9_manifest_missing (fun _ => 0) [] "r" c9Assembly
    (by intro art h; simp [c9Assembly] at h; simp [h, Artifact.isAssetManifest])
    "/proj" "Stk" [] "/tmp/out" c9Output [] false rfl rfl
  exact ⟨by intro art h; simp [c9Assembly] at h; simp [h, Artifact.isAssetManifest],
    rfl, rfl, h9.1, h9.2.2.1⟩

/-- C2: the code evaluated at a failing publish subprocess. The builder performs
no error translation: `_run_command` runs with `check=True` and no handler, so
the raw `CalledProcessError` propagates (the tests expect a distinct
`CdkInvocationError` that `cdk_builder.py` never defines). -/
theorem C2_raw_subprocess_error (exit : String → Nat) (base : EnvMap) (region : String)
    (assembly : CloudAssembly) (m : AssetManifestArtifact)
    (hm : getAssetsManifest assembly = .ok m)
    (hnoskip : pyOnlyAssetIsTemplate m.contents = false)
    (hfail : exit (Command.publishAssets m.file).render = 1) :
    (bootstrappedBuildTemplate exit base region assembly).result
      = .error (.calledProcessError 1 (Command.publishAssets m.file).render) := by
  have hrc := runCommand_fail exit (Command.publishAssets m.file).render (by simp [hfail])
  rw [hfail] at hrc
  simp [bootstrappedBuildTemplate, pythonBuildTemplate, bootstrappedSynthesize, hm,
    hnoskip, hrc]

/-- Concrete manifest fixture for the C2 witness: an extra file asset forces a
publish attempt. -/
def c2Manifest : AssetManifestArtifact :=
  ⟨⟨[], ["CDKStack.template.json", "extra.zip"]⟩, "assets.json"⟩

/-- Concrete assembly fixture for the C2 witness. -/
def c2Assembly : CloudAssembly :=
  ⟨[Artifact.assetManifest c2Manifest], JValue.obj []⟩

/-- Witness for C2 at a concrete failing publish subprocess. -/
theorem C2_raw_subprocess_error_witness :
    getAssetsManifest c2Assembly = .ok c2Manifest
    ∧ pyOnlyAssetIsTemplate c2Manifest.contents = false
    ∧ (fun _ => 1 : String → Nat) (Command.publishAssets c2Manifest.file).render = 1
    ∧ (bootstrappedBuildTemplate (fun _ => 1) [] "r" c2Assembly).result
      = .error (.calledProcessError 1 (Command.publishAssets c2Manifest.file).render) :=
  ⟨rfl, rfl, rfl,
   C2_raw_subprocess_error (fun _ => 1) [] "r" c2Assembly c2Manifest rfl rfl rfl⟩

/-- C10: a bootstrapless configuration with a key the synthesizer constructor
does not accept makes synthesis fail with a configuration-invalid error that
chains the TypeError as its cause; the stack constructor is never invoked and
nothing is published. -/
theorem C10_bootstrapless_invalid_config (exit : String → Nat) (base : EnvMap)
    (region : String) (accepted : List String) (config : List (String × String))
    (assembly : CloudAssembly)
    (h : ∃ kv ∈ config, accepted.contains kv.1 = false) :
    (∃ msg, (bootstraplessBuildTemplate exit base region accepted config assembly).result
        = .error (.argumentsInvalid (synthesizerConfigErrorMsg msg)
            (some (.typeError msg))))
    ∧ Action.constructStack
        ∉ (bootstraplessBuildTemplate exit base region accepted config assembly).actions
    ∧ countPublish
        (bootstraplessBuildTemplate exit base region accepted config assembly).actions = 0 := by
  obtain ⟨kv, hmem, hkv⟩ := h
  have hfind : (config.find? (fun kv => !accepted.contains kv.1)).isSome := by
    rw [List.find?_isSome]
    exact ⟨kv, hmem, by rw [hkv]; rfl⟩
  obtain ⟨kv', hkv'⟩ := Option.isSome_iff_exists.mp hfind
  have hsynth : bootstraplessSynthesize accepted config assembly
      = (.error (.argumentsInvalid
            (synthesizerConfigErrorMsg (unexpectedKwargMsg kv'.1))
            (some (.typeError (unexpectedKwargMsg kv'.1)))), []) := by
    unfold bootstraplessSynthesize
    rw [hkv']
  refine ⟨⟨unexpectedKwargMsg kv'.1, ?_⟩, ?_, ?_⟩ <;>
    simp [bootstraplessBuildTemplate, pythonBuildTemplate, hsynth, countPublish]

/-- Concrete assembly fixture for the C10 witness. -/
def c10Assembly : CloudAssembly :=
  ⟨[Artifact.assetManifest ⟨⟨[], ["CDKStack.template.json", "extra.zip"]⟩, "assets.json"⟩],
    JValue.obj []⟩

/-- Witness for C10 at a concrete rejected configuration key. -/
theorem C10_bootstrapless_invalid_config_witness :
    (∃ kv ∈ [("bad_key", "v")], (["file_asset_bucket_name"].contains kv.1) = false)
    ∧ ((∃ msg, (bootstraplessBuildTemplate (fun _ => 0) [] "r" ["file_asset_bucket_name"]
          [("bad_key", "v")] c10Assembly).result
        = .error (.argumentsInvalid (synthesizerConfigErrorMsg msg)
            (some (.typeError msg))))
      ∧ Action.constructStack
          ∉ (bootstraplessBuildTemplate (fun _ => 0) [] "r" ["file_asset_bucket_name"]
              [("bad_key", "v")] c10Assembly).actions
      ∧ countPublish
          (bootstraplessBuildTemplate (fun _ => 0) [] "r" ["file_asset_bucket_name"]
            [("bad_key", "v")] c10Assembly).actions = 0) :=
  ⟨⟨("bad_key", "v"), by decide⟩,
   C10_bootstrapless_invalid_config (fun _ => 0) [] "r" ["file_asset_bucket_name"]
     [("bad_key", "v")] c10Assembly ⟨("bad_key", "v"), by decide⟩⟩

/-- C8: a missing file and an exception during module execution propagate as
generic (untranslated) load errors, while a loaded module lacking the named
attribute raises the distinct SceptreException naming the class and the file
path; the failure kinds are distinguishable constructors. -/
theorem C8_import_failure_modes (file : ModuleFile) (path className : String) :
    (file.present = false →
      importClass file path className = .error (.fileNotFoundError path))
    ∧ (∀ m, file.present = true → file.execRaises = some m →
        importClass file path className = .error (.moduleExecError m))
    ∧ (file.present = true → file.execRaises = none →
        file.attrs.find? (fun p => p.1 = className) = none →
        importClass file path className
          = .error (.sceptreException
              ("No class named  " ++ className ++ " on template at " ++ path)))
    ∧ (∀ p msg, PyError.fileNotFoundError p ≠ PyError.sceptreException msg)
    ∧ (∀ e msg, PyError.moduleExecError e ≠ PyError.sceptreException msg) := by
  refine ⟨?_, ?_, ?_, ?_, ?_⟩
  · intro h
    simp [importClass, h]
  · intro m h1 h2
    simp [importClass, h1, h2]
  · intro h1 h2 h3
    simp [importClass, h1, h2, h3]
  · intro p msg hc
    exact PyError.noConfusion hc
  · intro e msg hc
    exact PyError.noConfusion hc

/-- Module-file fixture for the C8 witness: the file is absent. -/
def c8MissingFile : ModuleFile := ⟨false, none, []⟩

/-- Module-file fixture for the C8 witness: executing the module raises. -/
def c8ExecFile : ModuleFile := ⟨true, some "boom", []⟩

/-- Module-file fixture for the C8 witness: the module lacks the class. -/
def c8NoAttrFile : ModuleFile := ⟨true, none, [("Other", "OtherClass")]⟩

/-- Witness for C8 at the three concrete failure inputs. -/
theorem C8_import_failure_modes_witness :
    c8MissingFile.present = false
    ∧ importClass c8MissingFile "templates/stack.py" "CdkStack"
      = .error (.fileNotFoundError "templates/stack.py")
    ∧ c8ExecFile.execRaises = some "boom"
    ∧ importClass c8ExecFile "templates/stack.py" "CdkStack"
      = .error (.moduleExecError "boom")
    ∧ c8NoAttrFile.attrs.find? (fun p => p.1 = "CdkStack") = none
    ∧ importClass c8NoAttrFile "templates/stack.py" "CdkStack"
      = .error (.sceptreException
          ("No class named  " ++ "CdkStack" ++ " on template at " ++ "templates/stack.py")) :=
  ⟨rfl,
   (C8_import_failure_modes c8MissingFile "templates/stack.py" "CdkStack").1 rfl,
   rfl,
   (C8_import_failure_modes c8ExecFile "templates/stack.py" "CdkStack").2.1 "boom" rfl rfl,
   rfl,
   (C8_import_failure_modes c8NoAttrFile "templates/stack.py" "CdkStack").2.2.1 rfl rfl rfl⟩

/-- C7 counterexample: the schema of the source rejects the deployment_type
value cdk_json; its enum holds only bootstrapped and bootstrapless, so a
configuration using deployment_type cdk_json with a cdk.json path and a
stack_logical_id fails schema validation, contrary to the claim. -/
theorem C7_counterexample :
    schemaAccepts [("path", JValue.str "cdk.json"), ("deployment_type", JValue.str "cdk_json"),
      ("stack_logical_id", JValue.str "MyStack")] = false := rfl

/-- Arguments fixture for C7: a cdk.json project configured the way the source
supports it, with deployment_type bootstrapped and the variant selected by the
path. -/
def c7CdkJsonArgs : CdkArgs :=
  { path := "project/cdk.json", deployment_type := "bootstrapped",
    stack_logical_id := some "MyStack" }

/-- C7 (amended): the schema enum for deployment_type is exactly bootstrapped and
bootstrapless; cdk_json is rejected, and a cdk.json project instead validates by
pointing path at the cdk.json manifest while keeping an enum deployment_type. -/
theorem C7_deployment_type_enum :
    (∀ (args : RawArgs) (s : String), rawGet args "deployment_type" = some (.str s) →
      schemaAccepts args = true → s = "bootstrapped" ∨ s = "bootstrapless")
    ∧ schemaAccepts c7CdkJsonArgs.toRaw = true
    ∧ validate (fun _ => true) (fun _ => true) c7CdkJsonArgs = .ok () := by
  refine ⟨?_, rfl, by rfl⟩
  intro args s hget hacc
  obtain ⟨p, hfind, hp2⟩ :
      ∃ p, args.find? (fun q => q.1 = "deployment_type") = some p ∧ p.2 = .str s := by
    cases hf : args.find? (fun q => q.1 = "deployment_type") with
    | none => simp [rawGet, hf] at hget
    | some p => exact ⟨p, rfl, by simpa [rawGet, hf] using hget⟩
  have hpk : p.1 = "deployment_type" := by
    have := List.find?_some hfind
    exact of_decide_eq_true this
  have hmem : p ∈ args := List.mem_of_find?_eq_some hfind
  have hall : ∀ q ∈ args, propertyOk q.1 q.2 = true := by
    simp only [schemaAccepts, Bool.and_eq_true, List.all_eq_true] at hacc
    exact hacc.1.1
  have hprop := hall p hmem
  rw [hpk, hp2] at hprop
  simpa [propertyOk] using hprop

/-- Witness for C7 at the concrete fixture arguments. -/
theorem C7_deployment_type_enum_witness :
    rawGet c7CdkJsonArgs.toRaw "deployment_type" = some (JValue.str "bootstrapped")
    ∧ schemaAccepts c7CdkJsonArgs.toRaw = true
    ∧ ("bootstrapped" = "bootstrapped" ∨ "bootstrapped" = "bootstrapless") :=
  ⟨rfl, rfl,
   C7_deployment_type_enum.1 c7CdkJsonArgs.toRaw "bootstrapped" rfl rfl⟩

/-! ## Import identity (C3) -/

/-- Walking with the package flag already cleared never adds a segment. -/
theorem importWalk_false (hasInit : List String → Bool) (cwd : List String)
    (parents : List (List String)) :
    importWalk hasInit cwd parents false = [] := by
  induction parents with
  | nil => rfl
  | cons p rest ih => simp [importWalk, ih]

/-- The parents the walk processes: those before the working directory, then the
working directory itself (the loop breaks only after handling it). -/
def parentsUpToCwd (cwd : List String) (parents : List (List String)) :
    List (List String) :=
  parents.takeWhile (fun p => p ≠ cwd) ++ [cwd]

/-- Whether a directory qualifies for the module chain: it holds a package
marker and its name is an identifier. -/
def dirQualifies (hasInit : List String → Bool) (p : List String) : Bool :=
  hasInit p && isIdentifier (dirName p)

/-- The chain of directory names inferred for the module identity (innermost
first): the names of the longest qualifying prefix of the processed parents. -/
def moduleChain (hasInit : List String → Bool) (cwd : List String)
    (parents : List (List String)) : List String :=
  ((parentsUpToCwd cwd parents).takeWhile (dirQualifies hasInit)).map dirName

/-- The walk computes exactly the qualifying-prefix chain of the processed
parents. -/
theorem importWalk_eq_moduleChain (hasInit : List String → Bool) (cwd : List String)
    (parents : List (List String)) (hmem : cwd ∈ parents) :
    importWalk hasInit cwd parents true = moduleChain hasInit cwd parents := by
  induction parents with
  | nil => cases hmem
  | cons p rest ih =>
    by_cases hp : p = cwd
    · subst hp
      by_cases hq : (hasInit p && isIdentifier (dirName p)) = true <;>
        simp [importWalk, moduleChain, parentsUpToCwd, dirQualifies, hq]
    · have hmem' : cwd ∈ rest := by
        rcases List.mem_cons.mp hmem with heq | h
        · exact absurd heq.symm hp
        · exact h
      by_cases hq : (hasInit p && isIdentifier (dirName p)) = true
      · simp [importWalk, moduleChain, parentsUpToCwd, dirQualifies, hq, hp,
          ih hmem', List.takeWhile_cons]
      · simp [importWalk, moduleChain, parentsUpToCwd, dirQualifies, hq, hp,
          importWalk_false, List.takeWhile_cons]

/-- Package-marker oracle for the C3 counterexample: both the package directory
and the working directory itself hold an __init__.py file. -/
def c3HasInit : List String → Bool :=
  fun d => d = ["pkg", "proj"] || d = ["proj"]

/-- C3 counterexample: with the working directory proj containing __init__.py
and a stack file at proj/pkg/stack.py, the computed identity is
proj.pkg.stack — the chain includes the working directory itself, while the
claim requires it never be included (which would give pkg.stack). -/
theorem C3_counterexample :
    enableImportHierarchy c3HasInit ["proj"] ["pkg", "proj"] "stack" = "proj.pkg.stack"
    ∧ "proj.pkg.stack" ≠ "pkg.stack" :=
  ⟨rfl, by decide⟩

/-- C3 (amended): outside the working directory the identity is the bare stem;
inside it, the identity is the dotted chain of the names of the qualifying
prefix of the walked parents — a prefix that is truncated just after the
working directory itself, so the working directory IS included whenever it also
holds a package marker and has an identifier name. -/
theorem C3_import_identity (hasInit : List String → Bool) (cwd revDirs : List String)
    (stem : String) :
    (revDirs.tails.contains cwd = false →
      enableImportHierarchy hasInit cwd revDirs stem = stem)
    ∧ (revDirs.tails.contains cwd = true →
        enableImportHierarchy hasInit cwd revDirs stem
          = String.intercalate "."
              ((moduleChain hasInit cwd revDirs.tails).reverse ++ [stem])) := by
  constructor
  · intro h
    rw [enableImportHierarchy, if_pos (by rw [h]; exact Bool.false_ne_true)]
  · intro h
    have hmem : cwd ∈ revDirs.tails := List.elem_iff.mp h
    rw [enableImportHierarchy, if_neg (not_not_intro h),
      importWalk_eq_moduleChain hasInit cwd revDirs.tails hmem]

/-- Witness for C3: a file outside the working directory keeps its stem as
identity; the counterexample configuration matches the amended chain formula. -/
theorem C3_import_identity_witness :
    (["pkg", "other"].tails.contains (["proj"] : List String) = false
      ∧ enableImportHierarchy c3HasInit ["proj"] ["pkg", "other"] "stack" = "stack")
    ∧ (["pkg", "proj"].tails.contains (["proj"] : List String) = true
      ∧ enableImportHierarchy c3HasInit ["proj"] ["pkg", "proj"] "stack"
        = String.intercalate "."
            ((moduleChain c3HasInit ["proj"] ["pkg", "proj"].tails).reverse ++ ["stack"])) :=
  ⟨⟨by decide, (C3_import_identity c3HasInit ["proj"] ["pkg", "other"] "stack").1 (by decide)⟩,
   ⟨by decide, (C3_import_identity c3HasInit ["proj"] ["pkg", "proj"] "stack").2 (by decide)⟩⟩

/-! ## Validation rejection matrix (C6) -/

/-- The invalid configuration combinations listed by the spec. -/
def invalidCombo (a : CdkArgs) : Prop :=
  (a.deployment_type = "bootstrapped" ∧ a.bootstraplessConfig ≠ [])
  ∨ (a.deployment_type = "bootstrapless" ∧ optStrTruthy a.bootstrap_qualifier = true)
  ∨ (a.pathIsToCdkJson = true ∧ a.stack_logical_id = none)
  ∨ (a.pathIsToCdkJson = true ∧ ∃ p ∈ a.cdkContext, p.2.isNested = true)
  ∨ (a.pathIsToCdkJson = false ∧ a.pathIsToPythonFile = false)

/-- The path-dependent first stage of `CDK.validate`. -/
def validatePathStage (a : CdkArgs) : Except PyError Unit :=
  if a.pathIsToCdkJson then checkCdkJson a
  else if !a.pathIsToPythonFile then .error (.argumentsInvalid pathKindMsg none)
  else .ok ()

/-- The path stage either passes or raises a configuration-invalid error. -/
theorem validatePathStage_cases (a : CdkArgs) :
    validatePathStage a = .ok ()
    ∨ ∃ m, validatePathStage a = .error (.argumentsInvalid m none) := by
  unfold validatePathStage
  by_cases hp : a.pathIsToCdkJson = true
  · rw [if_pos hp]
    unfold checkCdkJson
    by_cases h1 : (!a.cdkContext.isEmpty && a.cdkContext.any fun p => p.2.isNested) = true
    · exact .inr ⟨nestedContextMsg, by rw [if_pos h1]⟩
    · by_cases h2 : a.stack_logical_id.isNone = true
      · exact .inr ⟨missingLogicalIdMsg, by rw [if_neg h1, if_pos h2]⟩
      · exact .inl (by rw [if_neg h1, if_neg h2])
  · rw [if_neg hp]
    by_cases h3 : (!a.pathIsToPythonFile) = true
    · exact .inr ⟨pathKindMsg, by rw [if_pos h3]⟩
    · exact .inl (by rw [if_neg h3])

/-- `CDK.validate` factored through the path stage, after passing prerequisites. -/
theorem validate_unfold (cmdE pkgE : String → Bool) (a : CdkArgs)
    (hpre : checkPrerequisites cmdE pkgE = .ok ()) :
    validate cmdE pkgE a =
      match validatePathStage a with
      | .error e => .error e
      | .ok _ =>
        if a.deployment_type = "bootstrapped" && !a.bootstraplessConfig.isEmpty then
          .error (.argumentsInvalid bootstrappedConfigMsg none)
        else if a.deployment_type = "bootstrapless" && optStrTruthy a.bootstrap_qualifier then
          .error (.argumentsInvalid bootstraplessQualifierMsg none)
        else if schemaAccepts a.toRaw then .ok ()
        else .error (.argumentsInvalid "arguments do not match the template handler schema" none) := by
  unfold validate validatePathStage
  rw [hpre]

/-- C6: every listed invalid combination (bootstrapped with a bootstrapless
config, bootstrapless with a qualifier, a cdk.json path without
stack_logical_id, a cdk.json path with nested context values, a path that is
neither Python nor cdk.json) makes validation fail with a configuration-invalid
error, and the combined validate-then-handle flow performs no action at all: no
subprocess command and no dynamic import. Prerequisite commands are assumed
present (otherwise a prerequisite error fires even earlier). -/
theorem C6_validation_rejects (o : Oracles) (a : CdkArgs) (ud : Bool)
    (hnode : o.cmdExists "node" = true) (hnpx : o.cmdExists "npx" = true)
    (hpkg : o.pkgExists "cdk-assets" = true) (hinv : invalidCombo a) :
    (∃ msg, (validateThenHandle o a ud).1 = .error (.argumentsInvalid msg none))
    ∧ (validateThenHandle o a ud).2 = [] := by
  have hpre : checkPrerequisites o.cmdExists o.pkgExists = .ok () := by
    unfold checkPrerequisites
    rw [hnode, hnpx, hpkg]
    rfl
  have hval : ∃ msg, validate o.cmdExists o.pkgExists a
      = .error (.argumentsInvalid msg none) := by
    rw [validate_unfold o.cmdExists o.pkgExists a hpre]
    rcases validatePathStage_cases a with hok | ⟨m, herr⟩
    · rw [hok]
      rcases hinv with ⟨hdep, hcfg⟩ | ⟨hdep, hq⟩ | ⟨hp, hsid⟩ | ⟨hp, hnested⟩ | ⟨hp1, hp2⟩
      · refine ⟨bootstrappedConfigMsg, ?_⟩
        have hc : (a.deployment_type = "bootstrapped" && !a.bootstraplessConfig.isEmpty)
            = true := by
          rw [hdep]
          simp [List.isEmpty_iff, hcfg]
        rw [if_pos hc]
      · refine ⟨bootstraplessQualifierMsg, ?_⟩
        have hc1 : (a.deployment_type = "bootstrapped" && !a.bootstraplessConfig.isEmpty)
            = false := by
          rw [hdep]
          simp
        have hc2 : (a.deployment_type = "bootstrapless" && optStrTruthy a.bootstrap_qualifier)
            = true := by
          rw [hdep, hq]
          simp
        rw [if_neg (by rw [hc1]; exact Bool.false_ne_true), if_pos hc2]
      · exfalso
        unfold validatePathStage at hok
        rw [if_pos hp] at hok
        unfold checkCdkJson at hok
        rw [hsid] at hok
        by_cases h1 : (!a.cdkContext.isEmpty && a.cdkContext.any fun p => p.2.isNested) = true
        · rw [if_pos h1] at hok
          exact Except.noConfusion hok
        · rw [if_neg h1] at hok
          simp at hok
      · exfalso
        unfold validatePathStage at hok
        rw [if_pos hp] at hok
        unfold checkCdkJson at hok
        have h1 : (!a.cdkContext.isEmpty && a.cdkContext.any fun p => p.2.isNested) = true := by
          obtain ⟨p, hpmem, hpn⟩ := hnested
          have hany : a.cdkContext.any (fun p => p.2.isNested) = true :=
            List.any_eq_true.mpr ⟨p, hpmem, hpn⟩
          have hne : a.cdkContext ≠ [] := by
            intro hc
            rw [hc] at hpmem
            cases hpmem
          simp [hany, List.isEmpty_iff, hne]
        rw [if_pos h1] at hok
        exact Except.noConfusion hok
      · exfalso
        unfold validatePathStage at hok
        rw [if_neg (by rw [hp1]; exact Bool.false_ne_true), if_pos (by rw [hp2]; rfl)] at hok
        exact Except.noConfusion hok
    · rw [herr]
      exact ⟨m, rfl⟩
  obtain ⟨msg, hmsg⟩ := hval
  unfold validateThenHandle
  rw [hmsg]
  exact ⟨⟨msg, rfl⟩, rfl⟩

/-- Oracle fixture for the C6 witness. -/
def c6Oracles : Oracles :=
  { cmdExists := fun _ => true, pkgExists := fun _ => true, exit := fun _ => 0,
    sessionEnv := [], region := "r", moduleFile := ⟨true, none, [("CdkStack", "C")]⟩,
    assembly := ⟨[], JValue.obj []⟩, acceptedSynthKeys := [], outputDir := "/tmp/out",
    synthOutput := ⟨none, JValue.obj []⟩ }

/-- Arguments fixture for the C6 witness: bootstrapped deployment with a
bootstrapless config. -/
def c6Args : CdkArgs :=
  { path := "stack.py", deployment_type := "bootstrapped",
    bootstrapless_config := some [("file_asset_bucket_name", "b")] }

/-- Witness for C6 at the bootstrapped-with-bootstrapless-config combination. -/
theorem C6_validation_rejects_witness :
    c6Oracles.cmdExists "node" = true ∧ c6Oracles.cmdExists "npx" = true
    ∧ c6Oracles.pkgExists "cdk-assets" = true ∧ invalidCombo c6Args
    ∧ (∃ msg, (validateThenHandle c6Oracles c6Args false).1
        = .error (.argumentsInvalid msg none))
    ∧ (validateThenHandle c6Oracles c6Args false).2 = [] := by
  have h := C6_validation_rejects c6Oracles c6Args false rfl rfl rfl
    (Or.inl ⟨rfl, by decide⟩)
  exact ⟨rfl, rfl, rfl, Or.inl ⟨rfl, by decide⟩, h.1, h.2⟩

end SceptreCdk
